import Mathlib

/-!
Verification of the yomo StreamGroup / Connector control-plane core and the
frame package against its specification.

The Go sources embedded here:
* `core/frame/frame.go` — frame data model, type codes, `NewFrame`.
* `core` stream-group file — `StreamGroup.VerifyAuthentication`, `authFailed`,
  `authOK`, and the `Run` dispatch loop.

Machine bytes are modelled as `Nat` (values < 256 where it matters), byte
slices as `List Nat`, Go `error` values as `Option String` (`none` = nil) and
Go `(T, error)` results as `Except String T` where the two are exclusive.
External effects (QUIC stream opens, transport writes, connection close,
verifier and metadata-builder calls) are supplied as explicit oracle inputs
and their occurrences are recorded as events.
-/

/-- Go `frame.Tag = uint32`, modelled as `Nat`. -/
abbrev Tag := Nat

/-- Go `frame.Type byte` (the frame-type code), modelled as `Nat`. -/
abbrev FrameType := Nat

/-- `AuthenticationFrame` from frame.go: `AuthName`, `AuthPayload`. -/
structure AuthenticationFrame where
  AuthName : String
  AuthPayload : String
deriving DecidableEq, Repr

/-- `AuthenticationAckFrame` from frame.go: no fields. -/
structure AuthenticationAckFrame where
deriving DecidableEq, Repr

/-- `DataFrame` from frame.go: `Metadata []byte`, `Tag`, `Payload []byte`. -/
structure DataFrame where
  Metadata : List Nat
  Tag : Tag
  Payload : List Nat
deriving DecidableEq, Repr

/-- `HandshakeFrame` from frame.go: `Name`, `ID`, `StreamType byte`,
`ObserveDataTags []Tag`, `Metadata []byte`. -/
structure HandshakeFrame where
  Name : String
  ID : String
  StreamType : Nat
  ObserveDataTags : List Tag
  Metadata : List Nat
deriving DecidableEq, Repr

/-- `HandshakeAckFrame` from frame.go: `StreamID`. -/
structure HandshakeAckFrame where
  StreamID : String
deriving DecidableEq, Repr

/-- `HandshakeRejectedFrame` from frame.go: `ID`, `Message`. -/
structure HandshakeRejectedFrame where
  ID : String
  Message : String
deriving DecidableEq, Repr

/-- `BackflowFrame` from frame.go: `Tag`, `Carriage []byte`. -/
structure BackflowFrame where
  Tag : Tag
  Carriage : List Nat
deriving DecidableEq, Repr

/-- `RejectedFrame` from frame.go: `Message`. -/
structure RejectedFrame where
  Message : String
deriving DecidableEq, Repr

/-- `GoawayFrame` from frame.go: `Message`. -/
structure GoawayFrame where
  Message : String
deriving DecidableEq, Repr

/-- The `Frame` interface of frame.go as a tagged union of the nine concrete
frame structs defined in that file. -/
inductive Frame where
  | authentication (f : AuthenticationFrame)
  | authenticationAck (f : AuthenticationAckFrame)
  | data (f : DataFrame)
  | handshake (f : HandshakeFrame)
  | handshakeRejected (f : HandshakeRejectedFrame)
  | handshakeAck (f : HandshakeAckFrame)
  | rejected (f : RejectedFrame)
  | backflow (f : BackflowFrame)
  | goaway (f : GoawayFrame)
deriving DecidableEq, Repr

/-- `TypeAuthenticationFrame Type = 0x03` from frame.go. -/
def TypeAuthenticationFrame : FrameType := 0x03

/-- `TypeAuthenticationAckFrame Type = 0x11` from frame.go. -/
def TypeAuthenticationAckFrame : FrameType := 0x11

/-- `TypeDataFrame Type = 0x3F` from frame.go. -/
def TypeDataFrame : FrameType := 0x3F

/-- `TypeHandshakeFrame Type = 0x31` from frame.go. -/
def TypeHandshakeFrame : FrameType := 0x31

/-- `TypeHandshakeRejectedFrame Type = 0x14` from frame.go. -/
def TypeHandshakeRejectedFrame : FrameType := 0x14

/-- `TypeHandshakeAckFrame Type = 0x29` from frame.go. -/
def TypeHandshakeAckFrame : FrameType := 0x29

/-- `TypeRejectedFrame Type = 0x39` from frame.go. -/
def TypeRejectedFrame : FrameType := 0x39

/-- `TypeBackflowFrame Type = 0x2D` from frame.go. -/
def TypeBackflowFrame : FrameType := 0x2D

/-- `TypeGoawayFrame Type = 0x2E` from frame.go. -/
def TypeGoawayFrame : FrameType := 0x2E

/-- The per-struct `Type()` methods of frame.go, gathered into one match on
the tagged union. -/
def Frame.type : Frame → FrameType
  | .authentication _ => TypeAuthenticationFrame
  | .authenticationAck _ => TypeAuthenticationAckFrame
  | .data _ => TypeDataFrame
  | .handshake _ => TypeHandshakeFrame
  | .handshakeRejected _ => TypeHandshakeRejectedFrame
  | .handshakeAck _ => TypeHandshakeAckFrame
  | .rejected _ => TypeRejectedFrame
  | .backflow _ => TypeBackflowFrame
  | .goaway _ => TypeGoawayFrame

/-- `frameTypeNewFuncMap` from frame.go: each defined type code paired with
the frame produced by its `func() Frame { return new(XFrame) }` — the Go zero
value of the struct (`""` strings, `0` numerals, nil slices). The Go map is
modelled as an association list. -/
def frameTypeNewFuncMap : List (FrameType × Frame) :=
  [ (TypeAuthenticationFrame, .authentication ⟨"", ""⟩),
    (TypeAuthenticationAckFrame, .authenticationAck ⟨⟩),
    (TypeDataFrame, .data ⟨[], 0, []⟩),
    (TypeHandshakeFrame, .handshake ⟨"", "", 0, [], []⟩),
    (TypeHandshakeRejectedFrame, .handshakeRejected ⟨"", ""⟩),
    (TypeHandshakeAckFrame, .handshakeAck ⟨""⟩),
    (TypeRejectedFrame, .rejected ⟨""⟩),
    (TypeBackflowFrame, .backflow ⟨0, []⟩),
    (TypeGoawayFrame, .goaway ⟨""⟩) ]

/-- `NewFrame` from frame.go: look the type code up in `frameTypeNewFuncMap`;
on a hit return the fresh frame and a nil error, otherwise a nil frame and a
non-nil error. `(Frame, error)` with exclusive nil-ness is `Except`. -/
def NewFrame (f : FrameType) : Except String Frame :=
  match frameTypeNewFuncMap.find? (fun p => p.1 == f) with
  | some p => .ok p.2
  | none => .error "frame: cannot new a frame from unknown type"

/-- Whether a type code is in the domain of `frameTypeNewFuncMap`, i.e. one of
the nine defined frame-type constants. -/
def isDefinedFrameType (t : FrameType) : Bool :=
  (frameTypeNewFuncMap.map Prod.fst).contains t

/-- C9: the single-byte frame type codes equal the spec's wire table for all
nine frame types: Authentication 0x03, AuthenticationAck 0x11, Data 0x3F,
Handshake 0x31, HandshakeRejected 0x14, HandshakeAck 0x29, Rejected 0x39,
Backflow 0x2D, Goaway 0x2E. -/
theorem frame_type_codes_match_wire_table :
    TypeAuthenticationFrame = 0x03 ∧
    TypeAuthenticationAckFrame = 0x11 ∧
    TypeDataFrame = 0x3F ∧
    TypeHandshakeFrame = 0x31 ∧
    TypeHandshakeRejectedFrame = 0x14 ∧
    TypeHandshakeAckFrame = 0x29 ∧
    TypeRejectedFrame = 0x39 ∧
    TypeBackflowFrame = 0x2D ∧
    TypeGoawayFrame = 0x2E := by
  decide

set_option maxRecDepth 8192 in
/-- C10: for every byte value `t`, `NewFrame t` returns a frame (with nil
error) exactly when `t` is one of the nine defined type codes, and then the
returned frame's `Type()` is `t`; for every other byte value it returns a nil
frame with a non-nil error. Stated via `Except.toOption`: `some`/`none` of
the mapped type code. -/
theorem newFrame_type_roundtrip :
    ∀ t : Fin 256,
      (NewFrame t.val).toOption.map Frame.type =
        if isDefinedFrameType t.val then some t.val else none := by
  decide

/-! ## Authentication over the control stream (`StreamGroup.VerifyAuthentication`) -/

/-- Modelled from the spec: `AuthenticationRespFrame` ("AuthenticationAck /
Resp", code 0x11, fields ok, reason). The struct and its constructor
`NewAuthenticationRespFrame(ok, reason)` are referenced by the stream-group
source but their definitions are not under src/. -/
structure AuthenticationRespFrame where
  OK : Bool
  Reason : String
deriving DecidableEq, Repr

/-- `NewAuthenticationRespFrame(ok, reason)`, modelled from the spec (see
`AuthenticationRespFrame`). -/
def NewAuthenticationRespFrame (ok : Bool) (reason : String) : AuthenticationRespFrame :=
  ⟨ok, reason⟩

/-- Modelled from the spec: the QUIC application error code used when closing
a rejected connection. The spec fixes only its symbolic identity (`Rejected`),
not a numeral; `yerr.ErrorCodeRejected`'s definition is not under src/. -/
inductive AppErrorCode where
  | Rejected
deriving DecidableEq, Repr

/-- Observable side effects of `VerifyAuthentication` on its connection:
a `WriteFrame` of an `AuthenticationRespFrame` on the control stream, or a
`CloseWithError` on the QUIC connection. -/
inductive AuthEvent where
  | wroteResp (resp : AuthenticationRespFrame)
  | closedConn (code : AppErrorCode) (reason : String)
deriving DecidableEq, Repr

/-- `StreamGroup.authFailed(se)`: write `AuthenticationRespFrame(false,
se.Error())`; if the write fails return its error, otherwise
`CloseWithError(Rejected, se.Error())` and return the close's result.
`writeErr`/`closeErr` are the oracle outcomes of those two calls. -/
def authFailed (se : String) (writeErr closeErr : Option String) :
    List AuthEvent × Option String :=
  let resp := NewAuthenticationRespFrame false se
  match writeErr with
  | some e => ([.wroteResp resp], some e)
  | none => ([.wroteResp resp, .closedConn .Rejected se], closeErr)

/-- `StreamGroup.authOK()`: write `AuthenticationRespFrame(true, "")` and
return the write's result. -/
def authOK (writeErr : Option String) : List AuthEvent × Option String :=
  ([.wroteResp (NewAuthenticationRespFrame true "")], writeErr)

/-- `StreamGroup.VerifyAuthentication(verifyFunc)` from the stream-group
source, with its external calls as oracle inputs: `readResult` is the
control stream's `ReadFrame()` outcome, `verifyFunc` yields Go's
`(bool, error)`, and `writeErr`/`closeErr` are the outcomes of the single
`WriteFrame` and `CloseWithError` the rejection/acceptance paths perform.
Returns the recorded events and the function's returned error.

Note the source's type-assertion branch: `f, ok := first.(*frame.
AuthenticationFrame); if !ok { return err }` returns the earlier `err`
variable, which is necessarily nil at that point. -/
def VerifyAuthentication (readResult : Except String Frame)
    (verifyFunc : AuthenticationFrame → Bool × Option String)
    (writeErr closeErr : Option String) :
    List AuthEvent × Option String :=
  match readResult with
  | .error e => ([], some e)
  | .ok first =>
    match first with
    | .authentication f =>
      match verifyFunc f with
      | (_, some e) => ([], some e)
      | (ok, none) =>
        if !ok then
          authFailed ("yomo: authentication failed, client credential name is "
            ++ f.AuthName) writeErr closeErr
        else
          authOK writeErr
    | _ => ([], none)

/-- Number of `AuthenticationRespFrame` writes among a list of events. -/
def countResp (evs : List AuthEvent) : Nat :=
  (evs.filter fun e => match e with | .wroteResp _ => true | _ => false).length

/-- C1: the first control-stream frame is read successfully but is not an
AuthenticationFrame (here: a DataFrame). The source's `if !ok { return err }`
returns the nil `err`: `VerifyAuthentication` records no events — it writes
no `AuthenticationRespFrame`, does not close the connection — and returns a
nil error, contrary to the specified reject-close-and-error behaviour. -/
theorem verifyAuthentication_nonAuthFrame_silently_returns_nil :
    VerifyAuthentication (.ok (.data ⟨[], 0, []⟩))
      (fun _ => (true, none)) none none = ([], none) := by
  rfl

/-- C4 counterexample: the verifier returns `(false, nil)` and both the
response write and the connection close succeed. `VerifyAuthentication` does
write the rejection response and close with `Rejected`, but returns the nil
result of `CloseWithError` — not the non-nil auth-rejected error the claim
requires. -/
theorem verifyAuthentication_rejected_returns_nil :
    VerifyAuthentication (.ok (.authentication ⟨"bad", "p"⟩))
      (fun _ => (false, none)) none none =
      ([.wroteResp ⟨false, "yomo: authentication failed, client credential name is bad"⟩,
        .closedConn .Rejected "yomo: authentication failed, client credential name is bad"],
       none) := by
  rfl

/-- C4 amended: whenever the verifier returns `(false, nil)`,
`VerifyAuthentication` writes exactly one `AuthenticationRespFrame` with
ok=false carrying the failure reason; if that write succeeds it closes the
QUIC connection with application error code `Rejected` and returns the
close's result — nil when the close succeeds — and if the write fails it
returns the write error without closing. -/
theorem verifyAuthentication_rejected_behaviour (f : AuthenticationFrame)
    (verifyFunc : AuthenticationFrame → Bool × Option String)
    (writeErr closeErr : Option String)
    (hv : verifyFunc f = (false, none)) :
    VerifyAuthentication (.ok (.authentication f)) verifyFunc writeErr closeErr =
      (let reason := "yomo: authentication failed, client credential name is "
         ++ f.AuthName
       match writeErr with
       | some e => ([.wroteResp ⟨false, reason⟩], some e)
       | none => ([.wroteResp ⟨false, reason⟩, .closedConn .Rejected reason], closeErr)) := by
  simp only [VerifyAuthentication, hv, authFailed, NewAuthenticationRespFrame,
    Bool.not_false, if_true]

/-- Witness for `verifyAuthentication_rejected_behaviour` at a concrete
verifier, frame and succeeding write/close. -/
theorem verifyAuthentication_rejected_behaviour_witness :
    (fun _ : AuthenticationFrame => (false, (none : Option String))) ⟨"bad", "p"⟩
        = (false, none) ∧
      VerifyAuthentication (.ok (.authentication ⟨"bad", "p"⟩))
        (fun _ => (false, none)) none none =
        ([.wroteResp ⟨false, "yomo: authentication failed, client credential name is bad"⟩,
          .closedConn .Rejected
            "yomo: authentication failed, client credential name is bad"],
         none) :=
  ⟨rfl, by
    have h := verifyAuthentication_rejected_behaviour ⟨"bad", "p"⟩
      (fun _ => (false, none)) none none rfl
    simpa using h⟩

/-- C7: in every execution of `VerifyAuthentication` — whatever frame (or
read error) arrives, whatever the verifier returns, and whatever the write
and close outcomes — at most one `AuthenticationRespFrame` is written to the
control stream. -/
theorem verifyAuthentication_at_most_one_resp (readResult : Except String Frame)
    (verifyFunc : AuthenticationFrame → Bool × Option String)
    (writeErr closeErr : Option String) :
    countResp (VerifyAuthentication readResult verifyFunc writeErr closeErr).1 ≤ 1 := by
  rcases readResult with e | first
  · simp [VerifyAuthentication, countResp]
  cases first
  case authentication f =>
    simp only [VerifyAuthentication]
    rcases hv : verifyFunc f with ⟨ok, _ | e⟩
    · rcases ok <;> rcases writeErr <;>
        simp [hv, authFailed, authOK, countResp]
    · simp [hv, countResp]
  all_goals simp [VerifyAuthentication, countResp]

/-! ## The dispatch loop (`StreamGroup.Run`) over Connector and DataStream -/

/-- Modelled from the spec: the opaque per-stream routing attributes produced
by the metadata builder ("opaque bytes"); the `metadata.Metadata` type is not
under src/. -/
abbrev Metadata := List Nat

/-- Modelled from the spec: `CloseStreamFrame` with `stream_id` and `reason`
(spec wire table row "CloseStream | (codec-defined) | C→S | stream_id,
reason"); its struct is not under src/. The stream-group source reads its
`StreamID()` and `Reason()`. -/
structure CloseStreamFrame where
  StreamID : String
  Reason : String
deriving DecidableEq, Repr

/-- Modelled from the spec: a `DataStream` entity with the immutable
attributes `{id, name, stream_type, observed_tags, metadata}` and its
transport handle (spec §3, §4.3); the dataStream struct is not under src/.
The transport stream is identified by the `Nat` handle that
`OpenStreamSync` returned. Field order follows the `newDataStream` call in
the stream-group source (the logger and control-stream arguments carry no
state relevant to the claims). -/
structure DataStream where
  Name : String
  ID : String
  StreamType : Nat
  Metadata : Metadata
  Stream : Nat
  ObserveDataTags : List Tag
deriving DecidableEq, Repr

/-- `newDataStream(name, id, streamType, metadata, stream, observeDataTags,
logger, controlStream)` as called by `Run` (state-free arguments dropped). -/
def newDataStream (name id : String) (streamType : Nat) (md : Metadata)
    (stream : Nat) (observeDataTags : List Tag) : DataStream :=
  ⟨name, id, streamType, md, stream, observeDataTags⟩

/-- Modelled from the spec: `NewHandshakeAckFrame()` — the constructor is not
under src/ and its call site in `Run` passes no arguments, so the produced
`HandshakeAckFrame` carries the zero-value `StreamID` `""`. -/
def NewHandshakeAckFrame : HandshakeAckFrame := ⟨""⟩

/-- Modelled from the spec: the Connector, a registry mapping stream-ID to
DataStream (spec §4.2); its implementation is not under src/. Modelled as an
association list (the Go source uses a mutex-guarded map; insertion order is
an artefact of the model). -/
abbrev Connector := List (String × DataStream)

/-- Connector `add(id, stream)` (spec §4.2): insert; if `id` is already
present the old entry is replaced (last-writer-wins) and the old stream is
closed — the evicted stream is returned so the caller can record that close
call. -/
def Connector.Add (c : Connector) (id : String) (ds : DataStream) :
    Connector × Option DataStream :=
  match c.find? (fun p => p.1 == id) with
  | some old => (c.map fun p => if p.1 == id then (id, ds) else p, some old.2)
  | none => (c ++ [(id, ds)], none)

/-- Connector `get(id)` (spec §4.2): snapshot lookup. The Go signature also
returns an error that is "reserved for future backends" and non-fatal, so the
model's lookup never errors. -/
def Connector.Get (c : Connector) (id : String) : Option DataStream :=
  (c.find? (fun p => p.1 == id)).map Prod.snd

/-- Connector `remove(id)` (spec §4.2): idempotent removal; does not itself
close the stream. -/
def Connector.Remove (c : Connector) (id : String) : Connector :=
  c.filter fun p => p.1 != id

/-- Observable side effects of one `Run` dispatch loop. `closedStream` is a
`Close` call on a data stream (from the close-frame handler or a Connector
eviction); `wroteAck` is the `stream.Write` of the encoded
`HandshakeAckFrame` on the freshly opened transport stream. -/
inductive RunEvent where
  | openedStream (handle : Nat)
  | wroteAck (handle : Nat) (ack : HandshakeAckFrame)
  | warnedBuild (e : String)
  | closedStream (ds : DataStream)
  | loggedCloseError (e : String)
  | removed (id : String)
deriving DecidableEq, Repr

/-- The state `Run` acts on: the shared Connector, the completion tracker's
pending count (`group.Add(1)` increments), the log of spawned supervised
tasks, and the event trace. -/
structure RunState where
  connector : Connector
  groupCount : Nat
  spawned : List DataStream
  events : List RunEvent
deriving DecidableEq, Repr

/-- The initial state: empty Connector, zero pending tasks, empty trace. -/
def initialState : RunState := ⟨[], 0, [], []⟩

/-- One control-stream `ReadFrame` outcome together with the oracle outcomes
of the external calls its handler performs: for a `HandshakeFrame`, the
`OpenStreamSync` result, the (discarded) `stream.Write` result and the
`mb.Build` result; for a `CloseStreamFrame`, the `stream.Close` result.
`other` is any other successfully read frame (the type switch ignores it). -/
inductive RunInput where
  | readError (e : String)
  | handshake (h : HandshakeFrame) (openResult : Except String Nat)
      (writeResult : Option String) (buildResult : Except String Metadata)
  | closeStream (c : CloseStreamFrame) (closeResult : Option String)
  | other (f : Frame)
deriving Repr

/-- The close event recorded when `Connector.Add` evicts an old entry. -/
def evictEvents : Option DataStream → List RunEvent
  | some old => [.closedStream old]
  | none => []

/-- The error-log event of a failed `stream.Close()` in the close handler. -/
def closeLogEvents : Option String → List RunEvent
  | some e => [.loggedCloseError e]
  | none => []

/-- The state after a handshake whose metadata build failed: the stream was
opened and the ack written, the warning logged, and nothing else changed. -/
def buildErrState (n : Nat) (e : String) (s : RunState) : RunState :=
  { s with events := s.events ++
      [.openedStream n, .wroteAck n NewHandshakeAckFrame, .warnedBuild e] }

/-- The state after a fully successful handshake: stream opened, ack written,
DataStream constructed and added under its id (closing any evicted entry),
tracker incremented, supervised task spawned. -/
def handshakeState (h : HandshakeFrame) (n : Nat) (md : Metadata)
    (s : RunState) : RunState :=
  let ds := newDataStream h.Name h.ID h.StreamType md n h.ObserveDataTags
  let added := Connector.Add s.connector ds.ID ds
  { connector := added.1,
    groupCount := s.groupCount + 1,
    spawned := s.spawned ++ [ds],
    events := s.events ++
      [.openedStream n, .wroteAck n NewHandshakeAckFrame] ++
      evictEvents added.2 }

/-- The state after handling a `CloseStreamFrame` whose id was present, bound
to `ds`: the stream closed (logging any close error) and the id removed. -/
def closeState (ds : DataStream) (c : CloseStreamFrame)
    (closeResult : Option String) (s : RunState) : RunState :=
  { connector := Connector.Remove s.connector c.StreamID,
    groupCount := s.groupCount,
    spawned := s.spawned,
    events := s.events ++ [.closedStream ds] ++
      closeLogEvents closeResult ++ [.removed c.StreamID] }

/-- `StreamGroup.Run(connector, mb, contextFunc)` from the stream-group
source, as a step interpreter over a finite list of read outcomes. Returns
the final state and `Run`'s returned error — `none` when the supplied inputs
are exhausted with the loop still running. Branches follow the source:
read error returns it; a `HandshakeFrame` opens a stream (failure returns the
error), writes the ack discarding the write's result, builds metadata
(failure logs a warning and continues), then constructs the DataStream, adds
it to the Connector, increments the tracker and spawns the supervised task;
a `CloseStreamFrame` ignores an absent id, otherwise closes, logging any
close error, and removes; any other frame is ignored. -/
def run (inputs : List RunInput) (s : RunState) : RunState × Option String :=
  match inputs with
  | [] => (s, none)
  | i :: rest =>
    match i with
    | .readError e => (s, some e)
    | .handshake h openResult _writeResult buildResult =>
      match openResult with
      | .error e => (s, some e)
      | .ok handle =>
        match buildResult with
        | .error e => run rest (buildErrState handle e s)
        | .ok md => run rest (handshakeState h handle md s)
    | .closeStream c closeResult =>
      match Connector.Get s.connector c.StreamID with
      | none => run rest s
      | some ds => run rest (closeState ds c closeResult s)
    | .other _ => run rest s

/-- Number of `Close` calls on the data stream `ds` in an event trace. -/
def countClose (evs : List RunEvent) (ds : DataStream) : Nat :=
  (evs.filter fun ev => ev == .closedStream ds).length

/-- The ids under which streams are registered, in registry order. -/
def connectorKeys (c : Connector) : List String := c.map Prod.fst

/-- Helper: `run` only ever appends to the event trace. -/
theorem run_events_extend (inputs : List RunInput) (s : RunState) :
    ∃ t, (run inputs s).1.events = s.events ++ t := by
  induction inputs generalizing s with
  | nil => exact ⟨[], by simp [run]⟩
  | cons i rest ih =>
    cases i with
    | readError e => exact ⟨[], by simp [run]⟩
    | handshake h openR w b =>
      cases openR with
      | error e => exact ⟨[], by simp [run]⟩
      | ok n =>
        cases b with
        | error e =>
          obtain ⟨t, ht⟩ := ih (buildErrState n e s)
          refine ⟨[.openedStream n, .wroteAck n NewHandshakeAckFrame, .warnedBuild e] ++ t, ?_⟩
          simp only [run]
          rw [ht]
          simp [buildErrState, List.append_assoc]
        | ok md =>
          obtain ⟨t, ht⟩ := ih (handshakeState h n md s)
          refine ⟨[.openedStream n, .wroteAck n NewHandshakeAckFrame] ++
            evictEvents (Connector.Add s.connector
              (newDataStream h.Name h.ID h.StreamType md n h.ObserveDataTags).ID
              (newDataStream h.Name h.ID h.StreamType md n h.ObserveDataTags)).2 ++ t, ?_⟩
          simp only [run]
          rw [ht]
          simp [handshakeState, List.append_assoc]
    | closeStream c closeR =>
      cases hg : Connector.Get s.connector c.StreamID with
      | none =>
        obtain ⟨t, ht⟩ := ih s
        exact ⟨t, by simp only [run, hg]; exact ht⟩
      | some ds =>
        obtain ⟨t, ht⟩ := ih (closeState ds c closeR s)
        refine ⟨[.closedStream ds] ++ closeLogEvents closeR ++ [.removed c.StreamID] ++ t, ?_⟩
        simp only [run, hg]
        rw [ht]
        simp [closeState, List.append_assoc]
    | other f =>
      obtain ⟨t, ht⟩ := ih s
      exact ⟨t, by simp only [run]; exact ht⟩

/-- C5: a `HandshakeFrame` whose metadata build fails makes `Run` log a
warning and continue the loop in a state that differs only by the trace of
the already-performed open/ack and the warning: no DataStream is
constructed, the Connector, the completion tracker and the spawned-task list
are unchanged. -/
theorem run_metadataBuildError_skips_handshake (h : HandshakeFrame) (n : Nat)
    (w : Option String) (e : String) (rest : List RunInput) (s : RunState) :
    run (.handshake h (.ok n) w (.error e) :: rest) s =
      run rest
        { connector := s.connector,
          groupCount := s.groupCount,
          spawned := s.spawned,
          events := s.events ++
            [.openedStream n, .wroteAck n NewHandshakeAckFrame, .warnedBuild e] } := by
  rfl

/-- C3 counterexample: a handshake whose transport stream opens successfully
but whose `HandshakeAckFrame` write fails ("boom") is not fatal: `Run` keeps
dispatching (it consumes the next input and returns that read's error, not
the write error) and the DataStream is registered as if the write had
succeeded. -/
theorem run_ackWriteFailure_not_fatal :
    (run [.handshake ⟨"src", "s1", 0, [42], []⟩ (.ok 1) (some "boom") (.ok []),
          .readError "next"] initialState).2 = some "next" ∧
      Connector.Get
          (run [.handshake ⟨"src", "s1", 0, [42], []⟩ (.ok 1) (some "boom") (.ok []),
                .readError "next"] initialState).1.connector "s1" =
        some (newDataStream "src" "s1" 0 [] 1 [42]) := by
  constructor <;> decide

/-- C3 amended: a failure of `OpenStreamSync` is fatal — `Run` immediately
returns the error with the state unchanged — but the result of writing the
`HandshakeAckFrame` is discarded by the source (`stream.Write(...)` with both
return values dropped), so the dispatch does not depend on it at all. -/
theorem run_handshake_open_fatal_ackWrite_ignored :
    (∀ (h : HandshakeFrame) (e : String) (w : Option String)
        (b : Except String Metadata) (rest : List RunInput) (s : RunState),
        run (.handshake h (.error e) w b :: rest) s = (s, some e)) ∧
    (∀ (h : HandshakeFrame) (n : Nat) (w w' : Option String)
        (b : Except String Metadata) (rest : List RunInput) (s : RunState),
        run (.handshake h (.ok n) w b :: rest) s =
          run (.handshake h (.ok n) w' b :: rest) s) :=
  ⟨fun _ _ _ _ _ _ => rfl, fun _ _ _ _ _ _ _ => rfl⟩

/-- C2 counterexample: a handshake request with id "s1" (stream opened
successfully as handle 1) gets a `HandshakeAckFrame` written as the first
bytes on the new stream whose `StreamID` is `""`, not the request's id. -/
theorem run_handshakeAck_carries_empty_id_cex :
    (run [.handshake ⟨"src", "s1", 0, [42], []⟩ (.ok 1) none (.ok [])]
        initialState).1.events =
        [.openedStream 1, .wroteAck 1 ⟨""⟩] ∧
      (HandshakeAckFrame.mk "").StreamID ≠
        (HandshakeFrame.mk "src" "s1" 0 [42] []).ID := by
  constructor
  · rfl
  · decide

/-- C2 amended: for every `HandshakeFrame` whose transport stream is opened
successfully, the `HandshakeAckFrame` written as the first bytes on the new
stream is the one built by the argument-less `NewHandshakeAckFrame()` and so
carries the empty `stream_id` `""` — not `H.id`. -/
theorem run_handshake_ack_written_first_with_empty_id (h : HandshakeFrame)
    (n : Nat) (w : Option String) (b : Except String Metadata)
    (rest : List RunInput) (s : RunState) :
    (∃ t, (run (.handshake h (.ok n) w b :: rest) s).1.events =
        s.events ++ [.openedStream n, .wroteAck n NewHandshakeAckFrame] ++ t) ∧
      NewHandshakeAckFrame.StreamID = "" := by
  refine ⟨?_, rfl⟩
  cases b with
  | error e =>
    obtain ⟨t, ht⟩ := run_events_extend rest (buildErrState n e s)
    refine ⟨[.warnedBuild e] ++ t, ?_⟩
    simp only [run]
    rw [ht]
    simp [buildErrState, List.append_assoc]
  | ok md =>
    obtain ⟨t, ht⟩ := run_events_extend rest (handshakeState h n md s)
    refine ⟨evictEvents (Connector.Add s.connector
        (newDataStream h.Name h.ID h.StreamType md n h.ObserveDataTags).ID
        (newDataStream h.Name h.ID h.StreamType md n h.ObserveDataTags)).2 ++ t, ?_⟩
    simp only [run]
    rw [ht]
    simp [handshakeState, List.append_assoc]

/-- Helper: looking an id up right after removing it finds nothing. -/
theorem connectorGet_remove_self (c : Connector) (id : String) :
    Connector.Get (Connector.Remove c id) id = none := by
  have hfind : (c.filter fun p => p.1 != id).find? (fun p => p.1 == id) = none := by
    rw [List.find?_eq_none]
    intro p hp
    have hmem := List.of_mem_filter hp
    simp only [bne_iff_ne, ne_eq, decide_eq_true_eq] at hmem
    simp [hmem]
  simp [Connector.Get, Connector.Remove, hfind]

/-- C6: close handling is idempotent and never fatal. A `CloseStreamFrame`
whose id is absent from the Connector leaves the state untouched and returns
no error; and when the id is present, processing two consecutive
`CloseStreamFrame`s for that id produces exactly one `Close` call on the
underlying stream, removes the id, returns no error, and logs (rather than
propagates) any close error. -/
theorem run_closeStream_idempotent (s : RunState) (id r1 r2 : String)
    (e1 e2 : Option String) :
    (Connector.Get s.connector id = none →
        run [.closeStream ⟨id, r1⟩ e1] s = (s, none)) ∧
    (∀ ds, Connector.Get s.connector id = some ds →
        countClose
            (run [.closeStream ⟨id, r1⟩ e1, .closeStream ⟨id, r2⟩ e2] s).1.events ds =
            countClose s.events ds + 1 ∧
          Connector.Get
              (run [.closeStream ⟨id, r1⟩ e1,
                    .closeStream ⟨id, r2⟩ e2] s).1.connector id = none ∧
          (run [.closeStream ⟨id, r1⟩ e1, .closeStream ⟨id, r2⟩ e2] s).2 = none ∧
          ∀ m, e1 = some m →
            RunEvent.loggedCloseError m ∈
              (run [.closeStream ⟨id, r1⟩ e1, .closeStream ⟨id, r2⟩ e2] s).1.events) := by
  constructor
  · intro hg
    simp [run, hg]
  · intro ds hg
    have hrem : Connector.Get (Connector.Remove s.connector id) id = none :=
      connectorGet_remove_self s.connector id
    have hstep : run [.closeStream ⟨id, r1⟩ e1, .closeStream ⟨id, r2⟩ e2] s =
        (closeState ds ⟨id, r1⟩ e1 s, none) := by
      simp only [run, hg]
      simp only [closeState]
      simp [run, hrem]
    rw [hstep]
    refine ⟨?_, ?_, rfl, ?_⟩
    · cases e1 <;>
        simp [closeState, closeLogEvents, countClose, List.filter_append]
    · simpa [closeState] using hrem
    · intro m hm
      simp [closeState, hm, closeLogEvents]

/-- Witness for `run_closeStream_idempotent` at a concrete state holding one
registered stream "s1": the double close yields exactly one close call. -/
theorem run_closeStream_idempotent_witness :
    Connector.Get ([("s1", ⟨"src", "s1", 0, [], 1, [42]⟩)] : Connector) "s1" =
        some ⟨"src", "s1", 0, [], 1, [42]⟩ ∧
      countClose
          (run [.closeStream ⟨"s1", "a"⟩ none, .closeStream ⟨"s1", "b"⟩ none]
            ⟨[("s1", ⟨"src", "s1", 0, [], 1, [42]⟩)], 0, [], []⟩).1.events
          ⟨"src", "s1", 0, [], 1, [42]⟩ =
        countClose [] ⟨"src", "s1", 0, [], 1, [42]⟩ + 1 :=
  ⟨by decide,
    ((run_closeStream_idempotent ⟨[("s1", ⟨"src", "s1", 0, [], 1, [42]⟩)], 0, [], []⟩
        "s1" "a" "b" none none).2 ⟨"src", "s1", 0, [], 1, [42]⟩ (by decide)).1⟩

/-- C8: from the empty registry, the control sequence [H₁, H₂, C(H₁.id)]
with distinct ids, successful opens and successful metadata builds leaves
the Connector holding exactly H₁'s stream, then H₁'s and H₂'s, then only
H₂'s: each handshake adds exactly its DataStream under its id and the close
removes exactly the named id. -/
theorem run_frame_ordering (H1 H2 : HandshakeFrame) (hne : H1.ID ≠ H2.ID)
    (n1 n2 : Nat) (w1 w2 : Option String) (m1 m2 : Metadata) (r : String)
    (e3 : Option String) :
    (run [.handshake H1 (.ok n1) w1 (.ok m1)] initialState).1.connector =
        [(H1.ID, newDataStream H1.Name H1.ID H1.StreamType m1 n1 H1.ObserveDataTags)] ∧
    (run [.handshake H1 (.ok n1) w1 (.ok m1),
          .handshake H2 (.ok n2) w2 (.ok m2)] initialState).1.connector =
        [(H1.ID, newDataStream H1.Name H1.ID H1.StreamType m1 n1 H1.ObserveDataTags),
         (H2.ID, newDataStream H2.Name H2.ID H2.StreamType m2 n2 H2.ObserveDataTags)] ∧
    (run [.handshake H1 (.ok n1) w1 (.ok m1),
          .handshake H2 (.ok n2) w2 (.ok m2),
          .closeStream ⟨H1.ID, r⟩ e3] initialState).1.connector =
        [(H2.ID, newDataStream H2.Name H2.ID H2.StreamType m2 n2 H2.ObserveDataTags)] := by
  have h12 : (H1.ID == H2.ID) = false := beq_eq_false_iff_ne.mpr hne
  have h21 : (H2.ID == H1.ID) = false := beq_eq_false_iff_ne.mpr (Ne.symm hne)
  have h21b : (H2.ID != H1.ID) = true := by simp [bne, h21]
  refine ⟨?_, ?_, ?_⟩ <;>
    simp [run, handshakeState, closeState, Connector.Add, Connector.Get,
      Connector.Remove, newDataStream, initialState, evictEvents,
      List.find?, List.filter, h12, h21, h21b]

/-- Witness for `run_frame_ordering` at concrete handshakes with ids "s1"
and "s2" and a close of "s1". -/
theorem run_frame_ordering_witness :
    (HandshakeFrame.mk "a" "s1" 0 [] []).ID ≠ (HandshakeFrame.mk "b" "s2" 0 [] []).ID ∧
      (run [.handshake ⟨"a", "s1", 0, [], []⟩ (.ok 1) none (.ok []),
            .handshake ⟨"b", "s2", 0, [], []⟩ (.ok 2) none (.ok []),
            .closeStream ⟨"s1", "done"⟩ none] initialState).1.connector =
        [("s2", newDataStream "b" "s2" 0 [] 2 [])] :=
  ⟨by decide,
    (run_frame_ordering ⟨"a", "s1", 0, [], []⟩ ⟨"b", "s2", 0, [], []⟩ (by decide)
        1 2 none none [] [] "done" none).2.2⟩
